import Mathlib

/-!
# Verification of the FormLab-OSS upscaling backend (`src/backend/main.py`)

This file gives a shallow embedding of the request-processing pipeline in
`src/backend/main.py` (the Flask `upscale` handler) and proves properties of
it.  External collaborators (the network, OpenCV decode/resample, the
Real-ESRGAN upsampler, Cloud Storage, Firestore) are modelled at their
interface boundary as oracle functions gathered in a `World` structure; the
handler's own control flow, dimension arithmetic, string construction and
effect ordering are translated line by line from the Python source.

Python's float arithmetic in `scale_factor = max_size / max(h, w)` and
`int(w * scale_factor)` is modelled with exact rationals; `int()` applied to
a non-negative value truncates toward zero, i.e. takes the floor.
-/

set_option maxRecDepth 20000

namespace FormLab

/-- `max_size` from main.py line 69: the resource-guard dimension cap. -/
def maxSize : Nat := 4000

/-- A decoded raster as produced by `cv2.imread`: height and width
(`img.shape[:2]`, main.py line 68) together with the pixel buffer, modelled
as a flat list. -/
structure Image where
  h : Nat
  w : Nat
  pix : List Nat
deriving Repr, DecidableEq

/-- Pixel content produced by `cv2.resize(..., interpolation=cv2.INTER_AREA)`
(main.py line 74).  The resampling kernel lives in OpenCV, outside this
repository; it is modelled here as index resampling into the source buffer.
No claim in this development depends on resampled pixel values, only on the
dimensions of the produced raster. -/
def resampleArea (img : Image) (newW newH : Nat) : List Nat :=
  (List.range (newH * newW)).map fun i =>
    let r := i / max newW 1
    let c := i % max newW 1
    img.pix.getD ((r * img.h / max newH 1) * img.w + (c * img.w / max newW 1)) 0

/-- `cv2.resize(img, (newW, newH), ...)`: returns a raster with exactly the
requested dimensions (the OpenCV contract), pixel data via `resampleArea`. -/
def cvResize (img : Image) (newW newH : Nat) : Image :=
  { h := newH, w := newW, pix := resampleArea img newW newH }

/-- The dimension computation of main.py lines 71-73:
`scale_factor = max_size / max(h, w)` followed by `int(d * scale_factor)`.
Python float division and multiplication are modelled as exact rational
arithmetic; `int()` on the non-negative result truncates toward zero,
which is the floor. -/
def scaledDim (d m : Nat) : Nat :=
  (⌊(d : ℚ) * ((maxSize : ℚ) / (m : ℚ))⌋).toNat

/-- The resource-guard stage, main.py lines 68-75: if
`max(h, w) > max_size`, resize to `(new_w, new_h)` computed by `scaledDim`;
otherwise the image passes through unchanged. -/
def guard (img : Image) : Image :=
  if maxSize < max img.h img.w then
    cvResize img (scaledDim img.w (max img.h img.w)) (scaledDim img.h (max img.h img.w))
  else img

/-- The parsed JSON body of a request as read by `data.get(...)`
(main.py lines 46-48): each field is present (`some`) or absent (`none`). -/
structure ReqData where
  requestId : Option String
  imageUrl : Option String
  userId : Option String
deriving Repr, DecidableEq

/-- Python truthiness of an optional string: `not x` holds when the field is
absent (`None`) or the empty string. -/
def falsy (s : Option String) : Bool := s.getD "" = ""

/-- Python `str()` of an optional string as interpolated by an f-string:
`None` renders as the four characters `None` (main.py line 91). -/
def pyStr (s : Option String) : String :=
  match s with
  | none => "None"
  | some v => v

/-- The blob path built by the f-string on main.py line 91. -/
def blobName (userId : Option String) (requestId : String) : String :=
  "users/" ++ pyStr userId ++ "/upscaled/" ++ requestId ++ ".jpg"

/-- A Firestore document mutation issued by the pipeline
(main.py lines 101-105 and 117-121).  Both mutations the code can issue are
terminal; the pipeline has no delete operation. -/
inductive StatusWrite where
  | completed (outputUrl : String)
  | failed (error : String)
deriving Repr, DecidableEq

/-- The externally observable side effects of one handler run, in program
order: URLs fetched (`requests.get`), number of `upsampler.enhance` calls,
blob paths uploaded, Firestore update attempts (with whether the store
accepted each), Firestore delete attempts (the code has none), and temp
files created / removed (0 = the downloaded input, 1 = the encoded
output). -/
structure Eff where
  fetches : List String
  inferences : Nat
  uploads : List String
  statusAttempts : List (String × StatusWrite × Bool)
  statusDeletes : List String
  tmpCreated : List Nat
  tmpRemoved : List Nat
deriving Repr, DecidableEq

/-- The run with no effects. -/
def Eff.empty : Eff := ⟨[], 0, [], [], [], [], []⟩

/-- The successful Firestore mutations of a run: update attempts the store
accepted. -/
def Eff.mutations (e : Eff) : List (String × StatusWrite) :=
  (e.statusAttempts.filter fun a => a.2.2).map fun a => (a.1, a.2.1)

/-- The HTTP response produced by the handler: status code, the `error`
field of the JSON payload if any, the `success` flag, and the `outputUrl`
field if any. -/
structure Resp where
  code : Nat
  errMsg : Option String
  success : Bool
  outputUrl : Option String
deriving Repr, DecidableEq

/-- An error response `jsonify({'error': msg}), code`. -/
def errResp (msg : String) (code : Nat) : Resp := ⟨code, some msg, false, none⟩

/-- The external collaborators of the pipeline, modelled at their interface
boundary as oracles.  `fetch` is `requests.get` + `raise_for_status`
(error = the exception's message); `decode` is `cv2.imread`, which returns
`None` (here `none`) on undecodable bytes; `enhance` is
`upsampler.enhance`; `encode` is `cv2.imwrite` to JPEG quality 95;
`upload` is the blob upload + `make_public`, returning the public URL;
`update` is a Firestore document update, which can fail
(store unavailable / document missing). -/
structure World where
  fetch : String → Except String (List Nat)
  decode : List Nat → Option Image
  enhance : Image → Except String Image
  encode : Image → List Nat
  upload : String → List Nat → Except String String
  update : String → StatusWrite → Except String Unit

/-- Whether the store accepts a given Firestore update in world `wld`. -/
def updOk (wld : World) (rid : String) (w : StatusWrite) : Bool :=
  match wld.update rid w with
  | Except.ok _ => true
  | Except.error _ => false

/-- The `except Exception as e` block of main.py lines 113-124: attempt a
best-effort `status=failed` Firestore update (its own failure is swallowed
by the inner bare `except: pass`), then return `jsonify({'error': str(e)}),
500` carrying the original stage failure. -/
def handleFailure (wld : World) (rid msg : String) (eff : Eff) : Resp × Eff :=
  (errResp msg 500,
   { eff with statusAttempts := eff.statusAttempts ++
       [(rid, StatusWrite.failed msg, updOk wld rid (StatusWrite.failed msg))] })

/-- The `/upscale` handler, main.py lines 41-124.  `data?` is `request.json`
after Python truthiness (`none` = absent or empty body).  Stages in program
order: validate; fetch (logged before its status is checked, since
`requests.get` runs before `raise_for_status`); write the input temp file;
decode (a `None` raster raises `AttributeError` at `img.shape`); guard
(`cv2.resize` rejects a zero target dimension); enhance; encode to the
output temp file; upload; Firestore `completed` update; remove both temp
files; respond.  Any stage failure jumps to `handleFailure`, except steps
of the failure path itself. -/
def upscale (wld : World) (data? : Option ReqData) : Resp × Eff :=
  match data? with
  | none => (errResp "No data provided" 400, Eff.empty)
  | some data =>
    if falsy data.requestId || falsy data.imageUrl then
      (errResp "Missing requestId or imageUrl" 400, Eff.empty)
    else
      let rid := data.requestId.getD ""
      let url := data.imageUrl.getD ""
      let eff0 : Eff := { Eff.empty with fetches := [url] }
      match wld.fetch url with
      | Except.error e => handleFailure wld rid e eff0
      | Except.ok bytes =>
        let eff1 := { eff0 with tmpCreated := eff0.tmpCreated ++ [0] }
        match wld.decode bytes with
        | none => handleFailure wld rid "AttributeError: NoneType object has no attribute shape" eff1
        | some img =>
          let img2rs : Except String Image :=
            if maxSize < max img.h img.w then
              let newW := scaledDim img.w (max img.h img.w)
              let newH := scaledDim img.h (max img.h img.w)
              if newW = 0 || newH = 0 then
                Except.error "cv2.error: ssize.empty or inv_scale_x > 0 in resize"
              else
                Except.ok (cvResize img newW newH)
            else Except.ok img
          match img2rs with
          | Except.error e => handleFailure wld rid e eff1
          | Except.ok img2 =>
            let eff2 := { eff1 with inferences := eff1.inferences + 1 }
            match wld.enhance img2 with
            | Except.error e => handleFailure wld rid e eff2
            | Except.ok out =>
              let outBytes := wld.encode out
              let eff3 := { eff2 with tmpCreated := eff2.tmpCreated ++ [1] }
              let path := blobName data.userId rid
              let eff4 := { eff3 with uploads := eff3.uploads ++ [path] }
              match wld.upload path outBytes with
              | Except.error e => handleFailure wld rid e eff4
              | Except.ok outUrl =>
                match wld.update rid (StatusWrite.completed outUrl) with
                | Except.error e =>
                  let eff5 := { eff4 with statusAttempts := eff4.statusAttempts ++ [(rid, StatusWrite.completed outUrl, false)] }
                  handleFailure wld rid e eff5
                | Except.ok _ =>
                  let eff5 := { eff4 with statusAttempts := eff4.statusAttempts ++ [(rid, StatusWrite.completed outUrl, true)] }
                  let eff6 := { eff5 with tmpRemoved := eff5.tmpRemoved ++ [0, 1] }
                  (⟨200, none, true, some outUrl⟩, eff6)

/-- The value of `request.json` as the handler body sees it (main.py
line 42), classified by how lines 42-48 treat it.  Flask itself rejects an
absent or unparseable body before line 42 with its own error, so those
never reach the handler.  A parsed body is either falsy (`null`, `{}`,
`[]`, `""`, `0`, `false` — caught by `if not data`), a truthy value that is
not an object (e.g. `[1]`, `"x"`, `5`, `true` — it passes the truthiness
guard and has no `.get`), or a truthy JSON object. -/
inductive Body where
  | falsy
  | truthyNonDict (ty : String)
  | dict (d : ReqData)
deriving Repr, DecidableEq

/-- Main.py lines 42-48 at the full `request.json` boundary.  A falsy body
takes the `if not data` early return.  A truthy non-object body passes that
guard, and `data.get('requestId')` on line 46 — outside the `try` block —
raises `AttributeError` (`ty` is the Python type name), which escapes the
view function as an unhandled exception: no 400, no effects, no status
write.  A truthy object proceeds into the handler proper. -/
def upscaleBody (wld : World) (b : Body) : Except String (Resp × Eff) :=
  match b with
  | Body.falsy => Except.ok (upscale wld none)
  | Body.truthyNonDict ty =>
      Except.error ("AttributeError: '" ++ ty ++ "' object has no attribute 'get'")
  | Body.dict d => Except.ok (upscale wld (some d))

/-- Round-to-nearest dimension scaling with a ≥ 1 clamp, following the
claim's words (`d * maxDimension / m` rounded to the nearest integer, at
least 1).  This is a comparison definition taken from the spec's wording,
not from the source; rounding is half away from zero. -/
def specRoundDim (d m : Nat) : Nat :=
  max ((2 * (d * maxSize) + m) / (2 * m)) 1

/-- A concrete 8000×6000 raster, used by witnesses. -/
def imgBig : Image := ⟨8000, 6000, []⟩

/-- A concrete 8001×5000 raster, used by witnesses (floor and
round-to-nearest differ here: the width becomes 2499, not 2500). -/
def imgOdd : Image := ⟨8001, 5000, []⟩

/-- A world in which every collaborator succeeds: the fetched bytes decode
to a small 10×10 raster, enhancement and encoding succeed, the upload
returns a URL derived from the blob path, and Firestore accepts every
update.  Used by witnesses. -/
def okWorld : World :=
  { fetch := fun _ => Except.ok [1, 2, 3]
    decode := fun _ => some ⟨10, 10, [5]⟩
    enhance := fun i => Except.ok i
    encode := fun _ => [9]
    upload := fun p _ => Except.ok ("https://storage.example/" ++ p)
    update := fun _ _ => Except.ok () }

/-- Like `okWorld` but the image fetch fails with an HTTP error
(`raise_for_status`). -/
def fetchFailWorld : World :=
  { okWorld with fetch := fun _ => Except.error "404 Client Error: Not Found" }

/-- Like `fetchFailWorld` but Firestore is also unavailable: every status
update fails. -/
def storeDownWorld : World :=
  { fetchFailWorld with update := fun _ _ => Except.error "firestore unavailable" }

/-- Like `okWorld` but the fetched bytes are not a decodable image:
`cv2.imread` returns `None`. -/
def decodeFailWorld : World :=
  { okWorld with decode := fun _ => none }

/-- A complete concrete request body. -/
def reqFull : ReqData := ⟨some "r1", some "https://x/img.png", some "u1"⟩

/-- A concrete request body whose `userId` key is absent. -/
def reqNoUser : ReqData := ⟨some "r1", some "https://x/img.png", none⟩

/-- A concrete request body whose `requestId` key is absent. -/
def reqNoId : ReqData := ⟨none, some "https://x/img.png", some "u1"⟩

end FormLab

namespace FormLab

/-- Bridge from the rational-arithmetic form of the source to natural
floor division: `int(d * (maxSize / m)) = d * maxSize / m` in `Nat`. -/
theorem scaledDim_eq_div (d m : Nat) :
    scaledDim d m = d * maxSize / m := by
  unfold scaledDim
  have hcast : ((d : ℚ) * ((maxSize : ℚ) / (m : ℚ))) = ((d * maxSize : Nat) : ℚ) / ((m : Nat) : ℚ) := by
    push_cast
    ring
  rw [hcast, Int.floor_toNat, Nat.floor_div_nat, Nat.floor_natCast]

theorem scaledDim_le (d m : Nat) (hm : 0 < m) (hd : d ≤ m) :
    scaledDim d m ≤ maxSize := by
  rw [scaledDim_eq_div d m]
  calc d * maxSize / m ≤ m * maxSize / m := by
        exact Nat.div_le_div_right (Nat.mul_le_mul_right _ hd)
    _ = maxSize := by
        rw [Nat.mul_comm, Nat.mul_div_cancel _ hm]

/-- The scaled dimension is within one pixel below the exactly proportional
value `d * maxSize / m`: `scaledDim d m * m ≤ d * maxSize < scaledDim d m * m + m`. -/
theorem scaledDim_one_pixel (d m : Nat) (hm : 0 < m) :
    scaledDim d m * m ≤ d * maxSize ∧ d * maxSize < scaledDim d m * m + m := by
  rw [scaledDim_eq_div d m]
  refine ⟨Nat.div_mul_le_self _ _, ?_⟩
  have h1 := Nat.div_add_mod (d * maxSize) m
  have h2 := Nat.mod_lt (d * maxSize) hm
  calc d * maxSize = m * (d * maxSize / m) + d * maxSize % m := (Nat.div_add_mod _ _).symm
    _ < m * (d * maxSize / m) + m := by omega
    _ = d * maxSize / m * m + m := by ring

/-- C1: if `max(h, w) > maxDimension` then the guard's output satisfies
`max(h', w') ≤ maxDimension`, and the aspect ratio is preserved to within
one-pixel rounding tolerance, formalised per dimension: each output
dimension differs from the exactly proportional value
`d * maxDimension / max(h, w)` by less than one pixel, i.e.
`h' * m ≤ h * maxDimension < h' * m + m` for `m = max(h, w)`, and likewise
for `w`. -/
theorem guard_caps_and_preserves_aspect (img : Image)
    (hbig : maxSize < max img.h img.w) :
    max (guard img).h (guard img).w ≤ maxSize ∧
    (guard img).h * max img.h img.w ≤ img.h * maxSize ∧
    img.h * maxSize < (guard img).h * max img.h img.w + max img.h img.w ∧
    (guard img).w * max img.h img.w ≤ img.w * maxSize ∧
    img.w * maxSize < (guard img).w * max img.h img.w + max img.h img.w := by
  have hm : 0 < max img.h img.w := lt_trans (by decide) hbig
  unfold guard
  rw [if_pos hbig]
  unfold cvResize
  refine ⟨?_, ?_, ?_, ?_, ?_⟩
  · exact max_le
      (scaledDim_le img.h (max img.h img.w) hm (le_max_left _ _))
      (scaledDim_le img.w (max img.h img.w) hm (le_max_right _ _))
  · exact (scaledDim_one_pixel img.h (max img.h img.w) hm).1
  · exact (scaledDim_one_pixel img.h (max img.h img.w) hm).2
  · exact (scaledDim_one_pixel img.w (max img.h img.w) hm).1
  · exact (scaledDim_one_pixel img.w (max img.h img.w) hm).2

/-- Witness for `guard_caps_and_preserves_aspect` at the concrete 8000×6000
image `imgBig`. -/
theorem guard_caps_and_preserves_aspect_witness :
    maxSize < max imgBig.h imgBig.w ∧
    (max (guard imgBig).h (guard imgBig).w ≤ maxSize ∧
     (guard imgBig).h * max imgBig.h imgBig.w ≤ imgBig.h * maxSize ∧
     imgBig.h * maxSize < (guard imgBig).h * max imgBig.h imgBig.w + max imgBig.h imgBig.w ∧
     (guard imgBig).w * max imgBig.h imgBig.w ≤ imgBig.w * maxSize ∧
     imgBig.w * maxSize < (guard imgBig).w * max imgBig.h imgBig.w + max imgBig.h imgBig.w) :=
  ⟨by decide, guard_caps_and_preserves_aspect imgBig (by decide)⟩

/-- C2: if `max(h, w) ≤ maxDimension` the guard is the identity — the image
(dimensions and pixel buffer) is returned unchanged. -/
theorem guard_identity_in_bounds (img : Image)
    (hsmall : max img.h img.w ≤ maxSize) :
    guard img = img := by
  unfold guard
  rw [if_neg (Nat.not_lt.mpr hsmall)]

/-- Witness for `guard_identity_in_bounds` at a concrete 100×50 image. -/
theorem guard_identity_in_bounds_witness :
    max (100 : Nat) 50 ≤ maxSize ∧ guard ⟨100, 50, [7, 7]⟩ = ⟨100, 50, [7, 7]⟩ :=
  ⟨by decide, guard_identity_in_bounds ⟨100, 50, [7, 7]⟩ (by decide)⟩

/-- C3 counterexample: at a 20000×3 image the code's new width is
`int(3 * (4000 / 20000)) = 0`, while the claim demands the nearest integer
to `0.6` (which is `1`) and a result of at least 1 pixel.  Both conjuncts
of the claim fail. -/
theorem guard_dims_round_claim_cex :
    ¬ ((guard ⟨20000, 3, []⟩).w = specRoundDim 3 (max 20000 3) ∧
       1 ≤ (guard ⟨20000, 3, []⟩).w) := by
  have hg : (guard ⟨20000, 3, []⟩).w = 3 * maxSize / max 20000 3 := by
    unfold guard
    rw [if_pos (by decide)]
    unfold cvResize
    exact scaledDim_eq_div 3 (max 20000 3)
  rw [hg]
  decide

/-- C3 amended: when the guard downscales, each new dimension equals the old
dimension times `factor = maxDimension / max(h, w)` truncated to an integer
(Python `int()`, i.e. the floor); there is no ≥ 1 clamp, so a dimension whose
exact scaled value is below 1 becomes 0. -/
theorem guard_dims_floor (img : Image) (hbig : maxSize < max img.h img.w) :
    (guard img).h = img.h * maxSize / max img.h img.w ∧
    (guard img).w = img.w * maxSize / max img.h img.w := by
  unfold guard
  rw [if_pos hbig]
  unfold cvResize
  exact ⟨scaledDim_eq_div img.h (max img.h img.w),
         scaledDim_eq_div img.w (max img.h img.w)⟩

/-- Witness for `guard_dims_floor` at the concrete 8001×5000 image
`imgOdd`. -/
theorem guard_dims_floor_witness :
    maxSize < max imgOdd.h imgOdd.w ∧
    ((guard imgOdd).h = imgOdd.h * maxSize / max imgOdd.h imgOdd.w ∧
     (guard imgOdd).w = imgOdd.w * maxSize / max imgOdd.h imgOdd.w) :=
  ⟨by decide, guard_dims_floor imgOdd (by decide)⟩

/-- Helper: a request body failing validation short-circuits the handler
with the 400 response and no effects (main.py lines 50-51). -/
theorem upscale_invalid (wld : World) (d : ReqData)
    (hmiss : (falsy d.requestId || falsy d.imageUrl) = true) :
    upscale wld (some d) = (errResp "Missing requestId or imageUrl" 400, Eff.empty) := by
  simp only [upscale]
  rw [if_pos hmiss]

/-- Helper: every run of the handler on a validated request issues Firestore
update attempts in exactly one of three shapes: a single best-effort
`failed` write (some stage before the `completed` update raised); a
rejected `completed` write followed by a best-effort `failed` write; or a
single accepted `completed` write (the success path). -/
theorem upscale_statusAttempts (wld : World) (d : ReqData)
    (hv : (falsy d.requestId || falsy d.imageUrl) = false) :
    (∃ msg,
      (upscale wld (some d)).2.statusAttempts =
        [(d.requestId.getD "", StatusWrite.failed msg,
          updOk wld (d.requestId.getD "") (StatusWrite.failed msg))]) ∨
    (∃ url e,
      wld.update (d.requestId.getD "") (StatusWrite.completed url) = Except.error e ∧
      (upscale wld (some d)).2.statusAttempts =
        [(d.requestId.getD "", StatusWrite.completed url, false),
         (d.requestId.getD "", StatusWrite.failed e,
          updOk wld (d.requestId.getD "") (StatusWrite.failed e))]) ∨
    (∃ url a,
      wld.update (d.requestId.getD "") (StatusWrite.completed url) = Except.ok a ∧
      (upscale wld (some d)).2.statusAttempts =
        [(d.requestId.getD "", StatusWrite.completed url, true)]) := by
  simp only [upscale]
  rw [if_neg (by simp [hv])]
  split
  · exact Or.inl ⟨_, rfl⟩
  · split
    · exact Or.inl ⟨_, rfl⟩
    · split
      · exact Or.inl ⟨_, rfl⟩
      · split
        · exact Or.inl ⟨_, rfl⟩
        · split
          · exact Or.inl ⟨_, rfl⟩
          · split
            · exact Or.inr (Or.inl ⟨_, _, by assumption, rfl⟩)
            · exact Or.inr (Or.inr ⟨_, _, by assumption, rfl⟩)

/-- Helper: no run of the handler ever issues a Firestore delete. -/
theorem upscale_no_deletes (wld : World) (data? : Option ReqData) :
    (upscale wld data?).2.statusDeletes = [] := by
  cases data? with
  | none => rfl
  | some d =>
    simp only [upscale]
    repeat' split
    all_goals rfl

/-- C10 counterexample: a truthy body that is not a JSON object — here the
JSON list `[1]`, whose Python type is `list` — is covered by the claim, yet
the handler does not return the claimed 400 `'No data provided'`: the body
passes the `if not data` truthiness guard and `data.get('requestId')` on
line 46, outside the `try` block, raises `AttributeError`, which escapes
the view as an unhandled exception. -/
theorem truthy_nondict_body_cex :
    upscaleBody okWorld (Body.truthyNonDict "list") ≠
      Except.ok (errResp "No data provided" 400, Eff.empty) :=
  fun h => Except.noConfusion h

/-- C10 amended: a request whose body parses as a falsy JSON value (`null`,
`{}`, `[]`, `""`, `0`, `false`) gets `jsonify({'error': 'No data
provided'}), 400` before any effect — no fetch, no inference, no upload,
no status-store write.  A truthy non-object body instead raises
`AttributeError` at `data.get` (line 46, outside the `try`), an unhandled
exception rather than the 400; an absent or unparseable body is rejected
by Flask itself before line 42 with Flask's own error. -/
theorem falsy_body_client_error (wld : World) :
    upscaleBody wld Body.falsy =
      Except.ok (errResp "No data provided" 400, Eff.empty) ∧
    (∀ ty, upscaleBody wld (Body.truthyNonDict ty) =
      Except.error ("AttributeError: '" ++ ty ++ "' object has no attribute 'get'")) :=
  ⟨rfl, fun _ => rfl⟩

/-- C4: a request body from which `requestId` or `imageUrl` is missing or
empty gets `jsonify({'error': 'Missing requestId or imageUrl'}), 400` and
produces no effects at all: no network fetch, no inference, no blob upload,
no status-store write. -/
theorem missing_fields_client_error (wld : World) (d : ReqData)
    (hmiss : (falsy d.requestId || falsy d.imageUrl) = true) :
    upscale wld (some d) = (errResp "Missing requestId or imageUrl" 400, Eff.empty) :=
  upscale_invalid wld d hmiss

/-- Witness for `missing_fields_client_error`: a concrete request with the
`requestId` key absent, in the all-successful world. -/
theorem missing_fields_client_error_witness :
    (falsy reqNoId.requestId || falsy reqNoId.imageUrl) = true ∧
    upscale okWorld (some reqNoId) = (errResp "Missing requestId or imageUrl" 400, Eff.empty) :=
  ⟨by decide, missing_fields_client_error okWorld reqNoId (by decide)⟩

/-- C6: the `except` block of main.py lines 113-124, through which every
pipeline-stage failure passes: when the best-effort `status=failed`
Firestore update itself fails, that secondary failure is swallowed — the
attempt is recorded as unsuccessful and the caller still receives
`jsonify({'error': str(e)}), 500` describing the original stage failure. -/
theorem failed_write_failure_swallowed (wld : World) (rid msg : String)
    (eff : Eff) (e2 : String)
    (hupd : wld.update rid (StatusWrite.failed msg) = Except.error e2) :
    (handleFailure wld rid msg eff).1 = errResp msg 500 ∧
    (handleFailure wld rid msg eff).2.statusAttempts =
      eff.statusAttempts ++ [(rid, StatusWrite.failed msg, false)] := by
  unfold handleFailure updOk
  rw [hupd]
  exact ⟨rfl, rfl⟩

/-- Witness for `failed_write_failure_swallowed` in the concrete world
whose Firestore rejects every update. -/
theorem failed_write_failure_swallowed_witness :
    storeDownWorld.update "r1" (StatusWrite.failed "boom") =
      Except.error "firestore unavailable" ∧
    ((handleFailure storeDownWorld "r1" "boom" Eff.empty).1 = errResp "boom" 500 ∧
     (handleFailure storeDownWorld "r1" "boom" Eff.empty).2.statusAttempts =
       Eff.empty.statusAttempts ++ [("r1", StatusWrite.failed "boom", false)]) :=
  ⟨rfl, failed_write_failure_swallowed storeDownWorld "r1" "boom" Eff.empty
    "firestore unavailable" rfl⟩

/-- C5: when the image fetch fails (`raise_for_status` raises on a
non-success status), the pipeline issues a `status=failed` Firestore update
whose error description is the failure cause, and returns
`jsonify({'error': str(e)}), 500` carrying that description.  (Whether the
store accepts the write is the store's affair — cf.
`failed_write_failure_swallowed`.) -/
theorem fetch_failure_records_and_reports (wld : World) (d : ReqData) (e : String)
    (hvalid : (falsy d.requestId || falsy d.imageUrl) = false)
    (hfetch : wld.fetch (d.imageUrl.getD "") = Except.error e) :
    (upscale wld (some d)).1 = errResp e 500 ∧
    (∃ b, (upscale wld (some d)).2.statusAttempts =
      [(d.requestId.getD "", StatusWrite.failed e, b)]) ∧
    (upscale wld (some d)).2.fetches = [d.imageUrl.getD ""] := by
  simp only [upscale]
  rw [if_neg (by simp [hvalid]), hfetch]
  exact ⟨rfl, ⟨_, rfl⟩, rfl⟩

/-- Witness for `fetch_failure_records_and_reports` at a concrete valid
request in the world whose fetch fails with a 404. -/
theorem fetch_failure_records_and_reports_witness :
    (falsy reqFull.requestId || falsy reqFull.imageUrl) = false ∧
    fetchFailWorld.fetch (reqFull.imageUrl.getD "") =
      Except.error "404 Client Error: Not Found" ∧
    ((upscale fetchFailWorld (some reqFull)).1 =
       errResp "404 Client Error: Not Found" 500 ∧
     (∃ b, (upscale fetchFailWorld (some reqFull)).2.statusAttempts =
       [(reqFull.requestId.getD "",
         StatusWrite.failed "404 Client Error: Not Found", b)]) ∧
     (upscale fetchFailWorld (some reqFull)).2.fetches =
       [reqFull.imageUrl.getD ""]) :=
  ⟨by decide, rfl,
   fetch_failure_records_and_reports fetchFailWorld reqFull
     "404 Client Error: Not Found" (by decide) rfl⟩

/-- C7 counterexample: when Firestore is unavailable the best-effort
`failed` write is rejected, so a run (here: valid request, fetch fails, all
updates fail) mutates the status record zero times, not exactly once. -/
theorem status_mutated_exactly_once_cex :
    ¬ ((upscale storeDownWorld (some reqFull)).2.mutations.length = 1) := by
  decide

/-- C7 amended: within a single run the status record is mutated at most
once — exactly once when the request passes validation and the store
accepts the pipeline's writes — always to a terminal state (the pipeline
can only issue `completed` or `failed` writes), and is never deleted; in
particular no run ever has a successful `completed` write followed by a
successful `failed` write. -/
theorem status_mutated_at_most_once (wld : World) (data? : Option ReqData) :
    (upscale wld data?).2.mutations.length ≤ 1 ∧
    (upscale wld data?).2.statusDeletes = [] ∧
    (∀ d, data? = some d → (falsy d.requestId || falsy d.imageUrl) = false →
      (∀ r s, wld.update r s = Except.ok ()) →
      (upscale wld data?).2.mutations.length = 1) := by
  refine ⟨?_, upscale_no_deletes wld data?, ?_⟩
  · cases data? with
    | none => exact Nat.zero_le 1
    | some d =>
      by_cases hv : (falsy d.requestId || falsy d.imageUrl) = true
      · rw [upscale_invalid wld d hv]
        exact Nat.zero_le 1
      · rcases upscale_statusAttempts wld d (by simpa using hv) with
          ⟨msg, hA⟩ | ⟨url, e, herr, hA⟩ | ⟨url, a, hok, hA⟩
        · cases hb : updOk wld (d.requestId.getD "") (StatusWrite.failed msg) <;>
            simp [Eff.mutations, hA, hb]
        · cases hb : updOk wld (d.requestId.getD "") (StatusWrite.failed e) <;>
            simp [Eff.mutations, hA, hb]
        · simp [Eff.mutations, hA]
  · intro d hd hv hok
    subst hd
    rcases upscale_statusAttempts wld d hv with
      ⟨msg, hA⟩ | ⟨url, e, herr, hA⟩ | ⟨url, a, _, hA⟩
    · have hb : updOk wld (d.requestId.getD "") (StatusWrite.failed msg) = true := by
        unfold updOk
        rw [hok]
      simp [Eff.mutations, hA, hb]
    · rw [hok] at herr
      exact absurd herr (by simp)
    · simp [Eff.mutations, hA]

/-- Witness for `status_mutated_at_most_once` at a concrete valid request
in the all-successful world: exactly one mutation and no deletes. -/
theorem status_mutated_at_most_once_witness :
    (upscale okWorld (some reqFull)).2.mutations.length ≤ 1 ∧
    (upscale okWorld (some reqFull)).2.statusDeletes = [] ∧
    (upscale okWorld (some reqFull)).2.mutations.length = 1 :=
  ⟨(status_mutated_at_most_once okWorld (some reqFull)).1,
   (status_mutated_at_most_once okWorld (some reqFull)).2.1,
   (status_mutated_at_most_once okWorld (some reqFull)).2.2 reqFull rfl (by decide)
     (fun _ _ => rfl)⟩

/-- C8 counterexample: in a successful run whose request has no `userId`
key, the blob path is `users/None/upscaled/r1.jpg` — Python's f-string
renders the absent value as `None`, not as the empty string the claim
asserts (`users//upscaled/r1.jpg`). -/
theorem upload_path_default_cex :
    (upscale okWorld (some reqNoUser)).1.success = true ∧
    (upscale okWorld (some reqNoUser)).2.uploads ≠ ["users//upscaled/r1.jpg"] := by
  decide

/-- C8 amended: every successful run uploads to exactly the deterministic
path `users/{userId}/upscaled/{requestId}.jpg`, where an absent `userId`
renders as the string `None` (Python `str(None)`); the path depends only on
the request fields, so the same request always maps to the same path. -/
theorem success_upload_path (wld : World) (d : ReqData)
    (hs : (upscale wld (some d)).1.success = true) :
    (upscale wld (some d)).2.uploads = [blobName d.userId (d.requestId.getD "")] := by
  by_cases hv : (falsy d.requestId || falsy d.imageUrl) = true
  · rw [upscale_invalid wld d hv] at hs
    exact absurd hs (by decide)
  · revert hs
    simp only [upscale]
    rw [if_neg (by simpa using hv)]
    split
    · intro hs
      simp [handleFailure, errResp] at hs
    · split
      · intro hs
        simp [handleFailure, errResp] at hs
      · split
        · intro hs
          simp [handleFailure, errResp] at hs
        · split
          · intro hs
            simp [handleFailure, errResp] at hs
          · split
            · intro hs
              simp [handleFailure, errResp] at hs
            · split
              · intro hs
                simp [handleFailure, errResp] at hs
              · intro _
                rfl

/-- Witness for `success_upload_path` at a concrete successful run with
`userId = "u1"`: the upload path is `users/u1/upscaled/r1.jpg`. -/
theorem success_upload_path_witness :
    (upscale okWorld (some reqFull)).1.success = true ∧
    (upscale okWorld (some reqFull)).2.uploads =
      [blobName reqFull.userId (reqFull.requestId.getD "")] :=
  ⟨by decide, success_upload_path okWorld reqFull (by decide)⟩

/-- C9: evaluation of the handler at the failing input — a valid request
whose fetched bytes are not decodable (`cv2.imread` returns `None`): the
run fails with a 500 response, the downloaded input temp file (id 0) was
created, and no temp file is ever removed.  `os.remove` is only reached on
the success path (main.py lines 107-109); no failure path releases the
temp files, contradicting the claimed unconditional cleanup. -/
theorem temp_files_leaked_on_decode_failure :
    (upscale decodeFailWorld (some reqFull)).1.code = 500 ∧
    (upscale decodeFailWorld (some reqFull)).2.tmpCreated = [0] ∧
    (upscale decodeFailWorld (some reqFull)).2.tmpRemoved = [] := by
  decide

end FormLab
